import Mathlib

/-!
Verification of the LuckyCat video-stream worker (worker-video).

The definitions below are a shallow embedding of the worker source:

* `generateThumbnailTimes` / `generateThumbnailUrls` embed
  `generateThumbnailUrls` from `src/services/openrouter-analysis.ts`
  (current version, lines 143-187).  JS numbers are modelled as `ℚ`;
  `Number(t.toFixed(1))` is `round1`, `Math.floor` is `Int.floor`,
  `Math.max`/`Math.min` are `max`/`min`.
* `uploadUrlHandler` embeds the `POST /upload/url` handler from
  `src/index.ts` (lines 379-527): the outcomes of the upstream fetches
  are an explicit environment, and the ordered list of upstream calls
  the handler issues is returned alongside the HTTP status.  A fetch
  that throws is caught by the outer catch of the handler and is terminal,
  so it issues the same upstream calls as a non-2xx response; only the
  response status differs (500 instead of 502), which no claim depends
  on.
* `analyzeHandler` embeds the body of the `POST /analyze/:uid` handler
  from `src/index.ts` (lines 563-704, the part after the API-key
  configuration check), again over an explicit environment of upstream
  outcomes.
* `analyzeVideoParse` embeds the response-parsing stage of
  `analyzeVideo` in `src/services/openrouter-analysis.ts` (lines
  118-135); the JS builtin `JSON.parse` (an external runtime facility,
  not repository code) is a parameter producing an optional abstract
  JSON value.
* `statusPayload` embeds the URL-composition part of the
  `GET /status/:uid` handler in `src/index.ts` (lines 169-225).
-/

namespace LuckyCat

/-! ### Keyframe sampler (`generateThumbnailUrls`, openrouter-analysis.ts) -/

/-- JS `Number(t.toFixed(1))`: round to one decimal place. -/
def round1 (q : ℚ) : ℚ := ((round (10 * q) : ℤ) : ℚ) / 10

/-- Fallback times used when the duration is unknown or non-positive:
`[1, 5, 10, 20, 30, 45, 60, 90]`. -/
def defaultTimes : List ℚ := [1, 5, 10, 20, 30, 45, 60, 90]

/-- Percentage offsets used for videos longer than 60 seconds:
`[0.02, 0.1, 0.2, 0.35, 0.5, 0.65, 0.8, 0.95]`. -/
def tierPercentages : List ℚ :=
  [2/100, 1/10, 2/10, 35/100, 1/2, 65/100, 8/10, 95/100]

/-- The two in-place end clamps
`times[0] = Math.max(0.1, times[0])` and
`times[times.length - 1] = Math.min(times[times.length - 1], Math.floor(maxTime))`. -/
def clampEnds (maxTime : ℚ) (times : List ℚ) : List ℚ :=
  let t1 := times.set 0 (max (1/10) (times.headD 0))
  t1.set (t1.length - 1) (min (t1.getLastD 0) ((⌊maxTime⌋ : ℤ) : ℚ))

/-- The timestamp sequence computed inside `generateThumbnailUrls`
(openrouter-analysis.ts, lines 152-182). -/
def generateThumbnailTimes (count : ℕ) (duration : Option ℚ) : List ℚ :=
  let fallback := defaultTimes.take count
  match duration with
  | none => fallback
  | some d =>
    if d ≤ 0 then fallback
    else
      let maxTime := max 0 (d - 1/2)
      let times :=
        if d ≤ 10 then
          (List.range count).map
            (fun (i : ℕ) => max (1/10) (round1 (maxTime * (i : ℚ) / ((count : ℚ) - 1))))
        else if d ≤ 60 then
          (List.range count).map
            (fun (i : ℕ) => ((⌊maxTime * (i : ℚ) / ((count : ℚ) - 1)⌋ : ℤ) : ℚ))
        else
          (tierPercentages.take count).map (fun p => ((⌊d * p⌋ : ℤ) : ℚ))
      clampEnds maxTime times

/-- Rendering of a timestamp inside the URL template literal; every
timestamp the sampler produces is a multiple of `1/10`. -/
def renderTime (t : ℚ) : String :=
  if t.den = 1 then toString t.num
  else toString ((10 * t).num / 10) ++ "." ++ toString ((10 * t).num % 10)

/-- Embedding of `generateThumbnailUrls` (openrouter-analysis.ts, lines 143-187). -/
def generateThumbnailUrls (streamUid : String) (_accountId : String)
    (count : ℕ) (duration : Option ℚ) : List String :=
  let baseUrl := "https://videodelivery.net/" ++ streamUid ++ "/thumbnails/thumbnail.jpg"
  (generateThumbnailTimes count duration).map
    (fun t => baseUrl ++ "?time=" ++ renderTime t ++ "s&width=640")

/-- A list is non-decreasing when each element is ≤ its successor. -/
def nonDecreasing (l : List ℚ) : Prop := l.Chain' (fun a b => a ≤ b)

/-! ### Upload orchestrator (`POST /upload/url`, index.ts) -/

/-- The upstream calls the upload handlers can issue, in the order the
code issues them.  `directUpload` is the session-only call made by the
separate `POST /upload/direct` handler; it is listed so that we can
state that the URL-upload handler never issues it. -/
inductive UploadCall where
  | copyFromUrl
  | sourceFetch
  | tusCreate
  | bufferBody
  | tusPatch
  | directUpload
  deriving DecidableEq, Repr

/-- Outcomes of the upstream endpoints as seen by one `POST /upload/url`
invocation. -/
structure UploadEnv where
  copyOk : Bool
  sourceOk : Bool
  contentLength : Option ℕ
  bodyBytes : ℕ
  tusOk : Bool
  tusLocation : Option String
  patchOk : Bool

/-- What one `POST /upload/url` invocation returns and does. -/
structure UploadResult where
  status : ℕ
  method : Option String
  buffered : Option ℕ
  calls : List UploadCall

/-- The stream-through size ceiling: `100 * 1024 * 1024` bytes. -/
def maxStreamThroughBytes : ℕ := 100 * 1024 * 1024

/-- The `POST /upload/url` handler (index.ts, lines 379-527). -/
def uploadUrlHandler (env : UploadEnv) : UploadResult :=
  if env.copyOk then
    { status := 200, method := some "copy", buffered := none,
      calls := [UploadCall.copyFromUrl] }
  else if env.sourceOk = false then
    { status := 502, method := none, buffered := none,
      calls := [UploadCall.copyFromUrl, UploadCall.sourceFetch] }
  else if env.contentLength.any (fun len => decide (maxStreamThroughBytes < len)) then
    { status := 413, method := none, buffered := none,
      calls := [UploadCall.copyFromUrl, UploadCall.sourceFetch] }
  else if env.tusOk = false then
    { status := 502, method := none, buffered := none,
      calls := [UploadCall.copyFromUrl, UploadCall.sourceFetch, UploadCall.tusCreate] }
  else if env.tusLocation.isNone then
    { status := 502, method := none, buffered := none,
      calls := [UploadCall.copyFromUrl, UploadCall.sourceFetch, UploadCall.tusCreate] }
  else if env.patchOk then
    { status := 200, method := some "stream-through", buffered := some env.bodyBytes,
      calls := [UploadCall.copyFromUrl, UploadCall.sourceFetch, UploadCall.tusCreate,
        UploadCall.bufferBody, UploadCall.tusPatch] }
  else
    { status := 502, method := none, buffered := some env.bodyBytes,
      calls := [UploadCall.copyFromUrl, UploadCall.sourceFetch, UploadCall.tusCreate,
        UploadCall.bufferBody, UploadCall.tusPatch] }

/-! ### Model-response parsing (`analyzeVideo`, openrouter-analysis.ts) -/

/-- Abstract JSON values, the output type of the external `JSON.parse`. -/
inductive Json where
  | null
  | bool (b : Bool)
  | num (q : ℚ)
  | str (s : String)
  | arr (elems : List Json)
  | obj (fields : List (String × Json))

/-- Field lookup on a JSON object, `none` when the field is absent. -/
def Json.getField : Json → String → Option Json
  | .obj fields, name => (fields.find? (fun f => f.1 == name)).map (fun f => f.2)
  | _, _ => none

/-- The code-fence stripping done on the model response text: the three
replace steps strip a leading ```json fence, then a leading ``` fence,
then a trailing ``` fence with the whitespace next to each, and the
result is trimmed. -/
def cleanContent (content : String) : String :=
  let s1 :=
    if content.startsWith "```json" then (content.drop 7).dropWhile Char.isWhitespace
    else content
  let s2 :=
    if s1.startsWith "```" then (s1.drop 3).dropWhile Char.isWhitespace
    else s1
  let s3 :=
    if s2.endsWith "```" then (s2.dropRight 3).trimRight
    else s2
  s3.trim

/-- The parsing stage of `analyzeVideo` (openrouter-analysis.ts, lines
118-135): `JSON.parse(cleanedContent) as AnalysisResult`.  The cast does
not inspect the parsed value, so a successful parse is returned as-is;
only a parse failure throws. -/
def analyzeVideoParse (jsonParse : String → Option Json) (content : String) :
    Except String Json :=
  match jsonParse (cleanContent content) with
  | some j => Except.ok j
  | none =>
    Except.error
      ("Invalid JSON in OpenRouter response: " ++ (cleanContent content).take 50 ++ "...")

/-! ### Analysis orchestration (`POST /analyze/:uid`, index.ts) -/

/-- The fully-populated analysis record used by the handler after a
successful model call. -/
structure AnalysisResult where
  title : String
  description : String
  category : String
  tags : List String
  content_rating : String
  language : String
  mood : String
  confidence : ℚ

/-- Upstream outcomes for one `POST /analyze/:uid` invocation:
the video-info fetch, the per-URL `HEAD` validation oracle, the model
call, and the metadata write-back (`none` means the update fetch threw;
`some s` means it returned HTTP status `s`). -/
structure AnalyzeEnv where
  infoOk : Bool
  infoDuration : Option ℚ
  headOk : String → Bool
  modelOutcome : Except String AnalysisResult
  updateOutcome : Option ℕ

/-- What one `POST /analyze/:uid` invocation returns and does. -/
structure AnalyzeResponse where
  status : ℕ
  success : Bool
  result : Option AnalysisResult
  cfUpdateStatus : Option String
  modelCalled : Bool

/-- JS `response.ok`: HTTP status in `[200, 300)`. -/
def isOkStatus (s : ℕ) : Bool := decide (200 ≤ s) && decide (s < 300)

/-- The body of the `POST /analyze/:uid` handler (index.ts, lines
563-704), after the API-key configuration check. -/
def analyzeHandler (uid accountId : String) (env : AnalyzeEnv) : AnalyzeResponse :=
  let duration := if env.infoOk then env.infoDuration else none
  let thumbnailUrls := generateThumbnailUrls uid accountId 8 duration
  let validatedUrls := thumbnailUrls.filter env.headOk
  if validatedUrls.isEmpty then
    { status := 422, success := false, result := none, cfUpdateStatus := none,
      modelCalled := false }
  else
    match env.modelOutcome with
    | Except.error _ =>
      { status := 500, success := false, result := none, cfUpdateStatus := none,
        modelCalled := true }
    | Except.ok analysis =>
      let cfUpdateStatus :=
        match env.updateOutcome with
        | none => "error"
        | some s => if isOkStatus s then "success" else "failed: " ++ toString s
      { status := 200, success := true, result := some analysis,
        cfUpdateStatus := some cfUpdateStatus, modelCalled := true }

/-! ### Status reporter (`GET /status/:uid`, index.ts) -/

/-- The video record fetched from the remote store, as used by the
status handler. -/
structure StreamVideo where
  uid : String
  state : String
  readyToStream : Bool
  duration : Option ℚ
  thumbnail : Option String
  playbackHls : Option String
  playbackDash : Option String

/-- Embedding of `thumbnailBase` (index.ts, line 177): the public thumbnail URL,
derived from the thumbnail of the record or composed from account and uid. -/
def statusThumbnailBase (accountId : String) (video : StreamVideo) : String :=
  match video.thumbnail with
  | some t => (t.splitOn "?").headD t
  | none =>
    "https://customer-" ++ accountId ++ ".cloudflarestream.com/" ++ video.uid ++
      "/thumbnails/thumbnail.jpg"

/-- JS `(q).toFixed(1)`: always one decimal digit, e.g. `"0.0"`. -/
def renderFixed1 (q : ℚ) : String :=
  toString ((round (10 * q) : ℤ) / 10) ++ "." ++ toString ((round (10 * q) : ℤ) % 10)

/-- The keyframe thumbnail URLs composed by the status handler
(index.ts, lines 179-188).  `if (video.duration)` is JS truthiness, so
a missing or zero duration takes the single-thumbnail branch. -/
def statusThumbnails (accountId : String) (video : StreamVideo) : List String :=
  match video.duration with
  | some d =>
    if d = 0 then
      [video.thumbnail.getD (statusThumbnailBase accountId video ++ "?height=360")]
    else
      (List.range 8).map
        (fun (i : ℕ) =>
          statusThumbnailBase accountId video ++ "?time=" ++
            renderFixed1 (d * (i : ℚ) / 7) ++ "s&height=360")
  | none => [video.thumbnail.getD (statusThumbnailBase accountId video ++ "?height=360")]

/-- The URL fields of the status response (index.ts, lines 199-225).
Fields not involved in the claims (sizes, captions, iframe, error info)
are omitted. -/
structure StatusPayload where
  uid : String
  readyToStream : Bool
  signedPlaybackUrl : Option String
  signedDashUrl : Option String
  signedDownloadUrl : Option String
  signedThumbnails : List String

/-- The URL composition of the `GET /status/:uid` handler (index.ts,
lines 169-225): public URLs are mapped directly into the signed-named
response fields. -/
def statusPayload (accountId : String) (video : StreamVideo) : StatusPayload :=
  let playbackUrl := video.playbackHls
  let downloadUrl :=
    playbackUrl.map (fun u => u.replace "/manifest/video.m3u8" "/downloads/default.mp4")
  { uid := video.uid
    readyToStream := video.readyToStream
    signedPlaybackUrl := playbackUrl
    signedDashUrl := video.playbackDash
    signedDownloadUrl := downloadUrl
    signedThumbnails := statusThumbnails accountId video }

/-! ### Concrete fixtures used by witnesses and counterexamples -/

/-- An analysis environment in which every thumbnail HEAD check fails. -/
def envNoThumbs : AnalyzeEnv :=
  { infoOk := false, infoDuration := none, headOk := fun _ => false,
    modelOutcome := Except.error "upstream", updateOutcome := none }

/-- A fully-populated sample analysis result. -/
def sampleAnalysis : AnalysisResult :=
  { title := "Sunny garden tour", description := "A walk through a garden.",
    category := "Travel", tags := ["garden", "tour", "plants", "outdoors", "spring"],
    content_rating := "safe", language := "en", mood := "Calm", confidence := 9/10 }

/-- An analysis environment in which every HEAD check passes, the model
answers, and the metadata write-back returns HTTP 500. -/
def envWriteBackFail : AnalyzeEnv :=
  { infoOk := false, infoDuration := none, headOk := fun _ => true,
    modelOutcome := Except.ok sampleAnalysis, updateOutcome := some 500 }

/-- An upload environment where copy is rejected and stream-through
succeeds. -/
def uploadEnvCopyFail : UploadEnv :=
  { copyOk := false, sourceOk := true, contentLength := some 1000, bodyBytes := 1000,
    tusOk := true, tusLocation := some "https://upload.example/session", patchOk := true }

/-- An upload environment where copy is rejected and the source reports
200 MiB. -/
def uploadEnvTooLarge : UploadEnv :=
  { copyOk := false, sourceOk := true, contentLength := some (200 * 1024 * 1024),
    bodyBytes := 200 * 1024 * 1024, tusOk := true,
    tusLocation := some "https://upload.example/session", patchOk := true }

/-- An upload environment where the source carries no Content-Length
header and the body is 500 MiB, far past the ceiling. -/
def uploadEnvNoLength : UploadEnv :=
  { copyOk := false, sourceOk := true, contentLength := none,
    bodyBytes := 500 * 1024 * 1024, tusOk := true,
    tusLocation := some "https://upload.example/session", patchOk := true }

/-- A ready-to-stream video record with public playback URLs. -/
def sampleVideo : StreamVideo :=
  { uid := "vid123", state := "ready", readyToStream := true, duration := some 7,
    thumbnail := none,
    playbackHls := some "https://customer-acc.cloudflarestream.com/vid123/manifest/video.m3u8",
    playbackDash := some "https://customer-acc.cloudflarestream.com/vid123/manifest/video.mpd" }

/-- Behavior of `JSON.parse` as observed at the schema-rejection counterexample
input: the two-character text `\x7b\x7d` is left unchanged by the
fence stripping and parses to the empty JSON object.  The parse stage
queries the parser at that single cleaned content, so it is modelled as
the constant returning that outcome. -/
def jsonParseEmptyObj : String → Option Json :=
  fun _ => some (Json.obj [])

/-! ### Helper lemmas -/

theorem range8_mapped (g : ℕ → ℚ) :
    (List.range 8).map g = [g 0, g 1, g 2, g 3, g 4, g 5, g 6, g 7] := rfl

theorem round1_mono {x y : ℚ} (h : x ≤ y) : round1 x ≤ round1 y := by
  have hr : round ((10:ℚ) * x) ≤ round ((10:ℚ) * y) := by
    rw [round_eq, round_eq]; exact Int.floor_le_floor (by linarith)
  have hc : ((round ((10:ℚ) * x) : ℤ) : ℚ) ≤ ((round ((10:ℚ) * y) : ℤ) : ℚ) :=
    Int.cast_le.mpr hr
  unfold round1
  linarith

theorem floorQ_mono {x y : ℚ} (h : x ≤ y) : ((⌊x⌋ : ℤ) : ℚ) ≤ ((⌊y⌋ : ℤ) : ℚ) :=
  Int.cast_le.mpr (Int.floor_le_floor h)

/-- Whole-sequence monotonicity holds in the two upper duration tiers. -/
theorem keyframeChainOfGt10 (d : ℚ) (h10 : 10 < d) :
    nonDecreasing (generateThumbnailTimes 8 (some d)) := by
  have hd0 : ¬ d ≤ 0 := by linarith
  have hn10 : ¬ d ≤ 10 := by linarith
  have hmax : (0:ℚ) ⊔ (d - 1/2) = d - 1/2 := max_eq_right (by linarith)
  by_cases h60 : d ≤ 60
  · simp only [generateThumbnailTimes, clampEnds, if_neg hd0, if_neg hn10, if_pos h60,
      range8_mapped, hmax, List.set, List.headD, List.getLastD, List.length,
      nonDecreasing, List.chain'_cons, List.chain'_singleton]
    push_cast
    refine ⟨?_, ?_, ?_, ?_, ?_, ?_, ?_, trivial⟩
    · refine max_le ?_ (floorQ_mono (by linarith))
      have h1 : (1:ℤ) ≤ ⌊(d - 1/2) * 1 / (8 - 1)⌋ :=
        Int.le_floor.mpr (by push_cast; linarith)
      have h1q : (1:ℚ) ≤ ((⌊(d - 1/2) * 1 / (8 - 1)⌋ : ℤ) : ℚ) := by exact_mod_cast h1
      linarith
    · exact floorQ_mono (by linarith)
    · exact floorQ_mono (by linarith)
    · exact floorQ_mono (by linarith)
    · exact floorQ_mono (by linarith)
    · exact floorQ_mono (by linarith)
    · exact le_min (floorQ_mono (by linarith)) (floorQ_mono (by linarith))
  · simp only [generateThumbnailTimes, clampEnds, if_neg hd0, if_neg hn10, if_neg h60,
      tierPercentages, List.take, List.map_cons, List.map_nil, hmax,
      List.set, List.headD, List.getLastD, List.length,
      nonDecreasing, List.chain'_cons, List.chain'_singleton]
    have h60' : (60:ℚ) < d := not_le.mp h60
    refine ⟨?_, ?_, ?_, ?_, ?_, ?_, ?_, trivial⟩
    · refine max_le ?_ (floorQ_mono (by linarith))
      have h1 : (1:ℤ) ≤ ⌊d * (1/10)⌋ := Int.le_floor.mpr (by push_cast; linarith)
      have h1q : (1:ℚ) ≤ ((⌊d * (1/10)⌋ : ℤ) : ℚ) := by exact_mod_cast h1
      linarith
    · exact floorQ_mono (by linarith)
    · exact floorQ_mono (by linarith)
    · exact floorQ_mono (by linarith)
    · exact floorQ_mono (by linarith)
    · exact floorQ_mono (by linarith)
    · exact le_min (floorQ_mono (by linarith)) (floorQ_mono (by linarith))

/-- In every tier the sequence without its final element is
non-decreasing. -/
theorem keyframeDropLastChain (d : ℚ) (hd : 0 < d) :
    nonDecreasing ((generateThumbnailTimes 8 (some d)).dropLast) := by
  by_cases h10 : d ≤ 10
  · have hd0 : ¬ d ≤ 0 := not_le.mpr hd
    simp only [generateThumbnailTimes, clampEnds, if_neg hd0, if_pos h10,
      range8_mapped, List.set, List.headD, List.getLastD, List.length,
      List.dropLast, nonDecreasing, List.chain'_cons, List.chain'_singleton]
    refine ⟨?_, ?_, ?_, ?_, ?_, ?_, trivial⟩
    · exact max_le (le_max_left _ _)
        (max_le (le_max_left _ _)
          (le_max_of_le_right (round1_mono
            (by push_cast; linarith [le_max_left (0:ℚ) (d - 1/2)]))))
    · exact max_le_max le_rfl (round1_mono
        (by push_cast; linarith [le_max_left (0:ℚ) (d - 1/2)]))
    · exact max_le_max le_rfl (round1_mono
        (by push_cast; linarith [le_max_left (0:ℚ) (d - 1/2)]))
    · exact max_le_max le_rfl (round1_mono
        (by push_cast; linarith [le_max_left (0:ℚ) (d - 1/2)]))
    · exact max_le_max le_rfl (round1_mono
        (by push_cast; linarith [le_max_left (0:ℚ) (d - 1/2)]))
    · exact max_le_max le_rfl (round1_mono
        (by push_cast; linarith [le_max_left (0:ℚ) (d - 1/2)]))
  · have h := keyframeChainOfGt10 d (not_le.mp h10)
    unfold nonDecreasing at h ⊢
    rw [List.dropLast_eq_take]
    exact List.Chain'.take h _

/-! ### Claim theorems -/

/-- Claim C1: if zero candidate thumbnail URLs survive the per-URL
existence validation, the analyze handler returns HTTP 422 and performs
no call to the model backend. -/
theorem analyzeRejectsWhenNoValidatedThumbnails
    (uid accountId : String) (env : AnalyzeEnv)
    (h : (generateThumbnailUrls uid accountId 8
            (if env.infoOk then env.infoDuration else none)).filter env.headOk = []) :
    (analyzeHandler uid accountId env).status = 422 ∧
      (analyzeHandler uid accountId env).modelCalled = false := by
  simp [analyzeHandler, h]

/-- Witness for C1: with every HEAD check failing, the handler answers
422 without calling the model. -/
theorem analyzeRejectsWhenNoValidatedThumbnails_witness :
    (analyzeHandler "vid" "acc" envNoThumbs).status = 422 ∧
      (analyzeHandler "vid" "acc" envNoThumbs).modelCalled = false :=
  analyzeRejectsWhenNoValidatedThumbnails "vid" "acc" envNoThumbs
    (by simp [envNoThumbs])

/-- Claim C2 counterexample: the model answer `\x7b\x7d` is valid JSON
that omits every required field, yet the parse stage returns it as a
success (a partial result with no `title`), not a terminal error. -/
theorem analyzeParseAcceptsMissingFields_cex :
    analyzeVideoParse jsonParseEmptyObj "\x7b\x7d" = Except.ok (Json.obj []) ∧
      Json.getField (Json.obj []) "title" = none := by
  constructor
  · simp [analyzeVideoParse, jsonParseEmptyObj]
  · rfl

/-- Claim C2 (amended): a model response whose content is not valid JSON
makes the parse stage fail with a terminal error; but a response that is
valid JSON is returned as-is with no field validation, so omitted
required fields yield a partial result instead of an error. -/
theorem analyzeParseTerminalOnlyOnInvalidJson (jsonParse : String → Option Json)
    (content : String) :
    (jsonParse (cleanContent content) = none →
      analyzeVideoParse jsonParse content =
        Except.error ("Invalid JSON in OpenRouter response: " ++
          (cleanContent content).take 50 ++ "...")) ∧
    ∀ j, jsonParse (cleanContent content) = some j →
      analyzeVideoParse jsonParse content = Except.ok j := by
  constructor
  · intro h; simp [analyzeVideoParse, h]
  · intro j h; simp [analyzeVideoParse, h]

/-- Witness for C2 (amended): a parse that fails on the cleaned content
yields the terminal invalid-JSON error. -/
theorem analyzeParseTerminalOnlyOnInvalidJson_witness :
    analyzeVideoParse (fun _ => none) "not json" =
      Except.error ("Invalid JSON in OpenRouter response: " ++
        (cleanContent "not json").take 50 ++ "...") :=
  (analyzeParseTerminalOnlyOnInvalidJson (fun _ => none) "not json").1 rfl

/-- Claim C3: when the store rejects remote-copy, the URL-upload
handler makes exactly one stream-through attempt, never a third
strategy, and retries no upstream operation. -/
theorem uploadFallbackSingleAttempt (env : UploadEnv) (h : env.copyOk = false) :
    (uploadUrlHandler env).calls.count UploadCall.copyFromUrl = 1 ∧
    (uploadUrlHandler env).calls.count UploadCall.sourceFetch = 1 ∧
    (uploadUrlHandler env).calls.count UploadCall.tusCreate ≤ 1 ∧
    (uploadUrlHandler env).calls.count UploadCall.bufferBody ≤ 1 ∧
    (uploadUrlHandler env).calls.count UploadCall.tusPatch ≤ 1 ∧
    (uploadUrlHandler env).calls.count UploadCall.directUpload = 0 ∧
    (uploadUrlHandler env).method ≠ some "direct-browser" := by
  simp only [uploadUrlHandler, h]
  split_ifs <;> simp_all [List.count_cons, List.count_nil]

/-- Witness for C3: a copy rejection followed by a successful
stream-through issues each upstream call once and no direct-upload. -/
theorem uploadFallbackSingleAttempt_witness :
    uploadEnvCopyFail.copyOk = false ∧
      (uploadUrlHandler uploadEnvCopyFail).calls.count UploadCall.sourceFetch = 1 ∧
      (uploadUrlHandler uploadEnvCopyFail).calls.count UploadCall.directUpload = 0 :=
  ⟨rfl, (uploadFallbackSingleAttempt uploadEnvCopyFail rfl).2.1,
    (uploadFallbackSingleAttempt uploadEnvCopyFail rfl).2.2.2.2.2.1⟩

/-- Claim C4: during the stream-through fallback, a Content-Length
beyond 100 MiB yields HTTP 413 before any upload session is created and
before any bytes are buffered or transferred. -/
theorem uploadPayloadTooLargeBeforeSession (env : UploadEnv) (len : ℕ)
    (hc : env.copyOk = false) (hs : env.sourceOk = true)
    (hl : env.contentLength = some len) (hbig : maxStreamThroughBytes < len) :
    (uploadUrlHandler env).status = 413 ∧
    (uploadUrlHandler env).calls.count UploadCall.tusCreate = 0 ∧
    (uploadUrlHandler env).calls.count UploadCall.bufferBody = 0 ∧
    (uploadUrlHandler env).calls.count UploadCall.tusPatch = 0 ∧
    (uploadUrlHandler env).buffered = none := by
  simp [uploadUrlHandler, hc, hs, hl, hbig]

/-- Witness for C4: a 200 MiB Content-Length is rejected with 413 and
no session call. -/
theorem uploadPayloadTooLargeBeforeSession_witness :
    maxStreamThroughBytes < 200 * 1024 * 1024 ∧
      (uploadUrlHandler uploadEnvTooLarge).status = 413 ∧
      (uploadUrlHandler uploadEnvTooLarge).calls.count UploadCall.tusCreate = 0 :=
  ⟨by norm_num [maxStreamThroughBytes],
    (uploadPayloadTooLargeBeforeSession uploadEnvTooLarge (200 * 1024 * 1024) rfl rfl rfl
      (by norm_num [maxStreamThroughBytes])).1,
    (uploadPayloadTooLargeBeforeSession uploadEnvTooLarge (200 * 1024 * 1024) rfl rfl rfl
      (by norm_num [maxStreamThroughBytes])).2.1⟩

/-- Claim C10: with no Content-Length header the ceiling is never
checked — the handler cannot answer 413 — and when the remaining steps
are reachable the entire payload is buffered whatever its actual size. -/
theorem uploadNoCeilingWithoutContentLength (env : UploadEnv)
    (hl : env.contentLength = none) :
    (uploadUrlHandler env).status ≠ 413 ∧
    (env.copyOk = false → env.sourceOk = true → env.tusOk = true →
      env.tusLocation.isSome = true →
      (uploadUrlHandler env).buffered = some env.bodyBytes) := by
  constructor
  · simp only [uploadUrlHandler, hl]
    split_ifs <;> simp_all [Option.any]
  · intro hc hs ht hloc
    have hnone : env.tusLocation.isNone = false := by
      cases hval : env.tusLocation with
      | none => rw [hval] at hloc; simp at hloc
      | some v => simp [hval]
    by_cases hp : env.patchOk <;>
      simp [uploadUrlHandler, hc, hs, hl, ht, hnone, hp]

/-- Witness for C10: a 500 MiB body with no Content-Length header is
fully buffered and never answered with 413. -/
theorem uploadNoCeilingWithoutContentLength_witness :
    (uploadUrlHandler uploadEnvNoLength).status ≠ 413 ∧
      (uploadUrlHandler uploadEnvNoLength).buffered = some (500 * 1024 * 1024) :=
  ⟨(uploadNoCeilingWithoutContentLength uploadEnvNoLength rfl).1,
    (uploadNoCeilingWithoutContentLength uploadEnvNoLength rfl).2 rfl rfl rfl rfl⟩

/-- Claim C5: when the model analysis succeeds and the metadata
write-back fails (non-success status or thrown error), the analyze
handler still returns the computed result as a success, reporting the
failure only in the separate `cfUpdateStatus` field. -/
theorem analyzeWriteBackFailureStillSucceeds (uid accountId : String)
    (env : AnalyzeEnv) (a : AnalysisResult)
    (hv : (generateThumbnailUrls uid accountId 8
            (if env.infoOk then env.infoDuration else none)).filter env.headOk ≠ [])
    (hm : env.modelOutcome = Except.ok a)
    (hw : ∀ s, env.updateOutcome = some s → isOkStatus s = false) :
    (analyzeHandler uid accountId env).status = 200 ∧
    (analyzeHandler uid accountId env).success = true ∧
    (analyzeHandler uid accountId env).result = some a ∧
    ((analyzeHandler uid accountId env).cfUpdateStatus = some "error" ∨
      ∃ s, env.updateOutcome = some s ∧
        (analyzeHandler uid accountId env).cfUpdateStatus =
          some ("failed: " ++ toString s)) := by
  cases hout : env.updateOutcome with
  | none => simp [analyzeHandler, hv, hm, hout]
  | some s =>
    have := hw s hout
    simp [analyzeHandler, hv, hm, hout, this]

/-- Witness for C5: a 500 write-back still returns the computed
analysis as a success. -/
theorem analyzeWriteBackFailureStillSucceeds_witness :
    (analyzeHandler "vid" "acc" envWriteBackFail).status = 200 ∧
      (analyzeHandler "vid" "acc" envWriteBackFail).success = true ∧
      (analyzeHandler "vid" "acc" envWriteBackFail).result = some sampleAnalysis :=
  ⟨(analyzeWriteBackFailureStillSucceeds "vid" "acc" envWriteBackFail sampleAnalysis
      (by simp [envWriteBackFail, generateThumbnailUrls, generateThumbnailTimes, defaultTimes])
      rfl (fun s hs => by cases hs; rfl)).1,
    (analyzeWriteBackFailureStillSucceeds "vid" "acc" envWriteBackFail sampleAnalysis
      (by simp [envWriteBackFail, generateThumbnailUrls, generateThumbnailTimes, defaultTimes])
      rfl (fun s hs => by cases hs; rfl)).2.1,
    (analyzeWriteBackFailureStillSucceeds "vid" "acc" envWriteBackFail sampleAnalysis
      (by simp [envWriteBackFail, generateThumbnailUrls, generateThumbnailTimes, defaultTimes])
      rfl (fun s hs => by cases hs; rfl)).2.2.1⟩

/-- Claim C6 counterexample: for a ready-to-stream record the status
handler returns the public playback URL of the record unchanged — the raw
video identifier `vid123` is still in the URL path, no signed token
replaces it and the Signed Token Issuer is never involved. -/
theorem statusSignedUrls_cex :
    sampleVideo.readyToStream = true ∧
      (statusPayload "acc" sampleVideo).signedPlaybackUrl =
        some "https://customer-acc.cloudflarestream.com/vid123/manifest/video.m3u8" :=
  ⟨rfl, rfl⟩

/-- Claim C6 (amended): for a ready record with a usable duration the
status payload maps the public playback URL through unchanged into the
signed-named field, and every thumbnail URL is the public thumbnail
base (still containing the raw identifier) plus a query suffix; no
token issuance happens. -/
theorem statusPublicUrlsAmended (accountId : String) (video : StreamVideo) (d : ℚ)
    (_hr : video.readyToStream = true) (hd : video.duration = some d)
    (hd0 : ¬ d = 0) :
    (statusPayload accountId video).signedPlaybackUrl = video.playbackHls ∧
    ∀ u ∈ (statusPayload accountId video).signedThumbnails,
      ∃ suffix, u = statusThumbnailBase accountId video ++ suffix := by
  refine ⟨rfl, ?_⟩
  intro u hu
  simp only [statusPayload, statusThumbnails, hd, if_neg hd0, List.mem_map,
    List.mem_range] at hu
  obtain ⟨i, _, rfl⟩ := hu
  exact ⟨"?time=" ++ renderFixed1 (d * (i : ℚ) / 7) ++ "s&height=360", by
    simp [String.append_assoc]⟩

/-- Witness for C6 (amended): the sample ready record keeps its public
HLS manifest URL. -/
theorem statusPublicUrlsAmended_witness :
    sampleVideo.readyToStream = true ∧
      (statusPayload "acc" sampleVideo).signedPlaybackUrl = sampleVideo.playbackHls :=
  ⟨rfl, (statusPublicUrlsAmended "acc" sampleVideo 7 rfl rfl (by norm_num)).1⟩

/-- Claim C7: for duration 10 and the default count of 8, every sampled
timestamp lies in the closed interval `[0.1, 9.5]`. -/
theorem keyframeBoundsDuration10 :
    ∀ t ∈ generateThumbnailTimes 8 (some 10), 1/10 ≤ t ∧ t ≤ 19/2 := by
  norm_num [generateThumbnailTimes, clampEnds, round1, round_eq, range8_mapped,
    List.headD, List.getLastD]

/-- Witness for C7: the first sampled timestamp, `0.1`, is a member and
satisfies the bounds. -/
theorem keyframeBoundsDuration10_witness :
    (1/10 : ℚ) ∈ generateThumbnailTimes 8 (some 10) ∧
      ((1:ℚ)/10 ≤ 1/10 ∧ (1:ℚ)/10 ≤ 19/2) := by
  have hmem : (1/10 : ℚ) ∈ generateThumbnailTimes 8 (some 10) := by
    norm_num [generateThumbnailTimes, clampEnds, round1, round_eq, range8_mapped,
      List.headD, List.getLastD]
  exact ⟨hmem, (keyframeBoundsDuration10 (1/10) hmem).1,
    (keyframeBoundsDuration10 (1/10) hmem).2⟩

/-- Claim C8: for an unknown, undefined, or non-positive duration the
sampler returns exactly the fixed fallback sequence truncated to the
first `count` elements, with no further modification. -/
theorem keyframeFallbackUnmodified (count : ℕ) (duration : Option ℚ)
    (h : duration.elim True (fun d => d ≤ 0)) :
    generateThumbnailTimes count duration = defaultTimes.take count := by
  cases duration with
  | none => rfl
  | some d =>
    simp only [Option.elim] at h
    simp [generateThumbnailTimes, h]

/-- Witness for C8: zero duration with count 3 yields the first three
fallback times unmodified. -/
theorem keyframeFallbackUnmodified_witness :
    ((some (0:ℚ)).elim True (fun d => d ≤ 0)) ∧
      generateThumbnailTimes 3 (some 0) = defaultTimes.take 3 :=
  ⟨by norm_num [Option.elim],
    keyframeFallbackUnmodified 3 (some 0) (by norm_num [Option.elim])⟩

/-- Claim C9 counterexample: for duration 1 (any duration below 1.5
behaves alike) the final clamp to `⌊d − 0.5⌋ = 0` pushes the last
timestamp below its predecessor, so the returned sequence is not
non-decreasing. -/
theorem keyframeMonotoneClaim_cex :
    ¬ nonDecreasing (generateThumbnailTimes 8 (some 1)) := by
  norm_num [nonDecreasing, generateThumbnailTimes, clampEnds, round1, round_eq,
    range8_mapped, List.headD, List.getLastD, List.chain'_cons, List.chain'_singleton]

/-- Claim C9 (amended): for every duration `d > 0` at the default count
of 8, the sequence with its final element removed is monotonically
non-decreasing in all three tiers, and the full sequence is
non-decreasing whenever `d > 10`; for `d ≤ 10` the final clamp to
`⌊d − 0.5⌋` can drop the last timestamp below its predecessor. -/
theorem keyframeMonotoneCorrected (d : ℚ) (hd : 0 < d) :
    nonDecreasing ((generateThumbnailTimes 8 (some d)).dropLast) ∧
      (10 < d → nonDecreasing (generateThumbnailTimes 8 (some d))) :=
  ⟨keyframeDropLastChain d hd, fun h10 => keyframeChainOfGt10 d h10⟩

/-- Witness for C9 (amended): at duration 11 the full sequence is
non-decreasing. -/
theorem keyframeMonotoneCorrected_witness :
    (0:ℚ) < 11 ∧ nonDecreasing (generateThumbnailTimes 8 (some 11)) :=
  ⟨by norm_num, (keyframeMonotoneCorrected 11 (by norm_num)).2 (by norm_num)⟩

end LuckyCat
